import Mathlib

/-!
# Verification of the "Professional Analyst Bot" (`src/app.py`)

Shallow embedding of the single-file Streamlit application.  The app parses an
uploaded CSV into a pandas `DataFrame`, computes a column/type summary
(`info_df`), a statistical summary (`df.describe()`), an optional correlation
heatmap over the numeric columns, an interactively selected chart
(histogram / bar chart / scatter plot), and a downloadable plain-text report.

Modelling conventions:
* A `DataFrame` is a `Table`: a list of named columns of `Cell`s.
* A cell is a rational number, a string, a boolean, or missing (pandas `NaN`).
  Floating point values are idealised as rationals (table data) and reals
  (derived correlation values); `NaN` results are modelled as `Option.none`.
* pandas dtype inference for a CSV column: a column whose present values are
  all numbers is `numeric` (pandas `int64`/`float64`; the int/float split is
  not tracked); a column whose cells are all booleans (no missings) is
  `boolean`; anything else is `object`.
* Streamlit widgets: a selectbox over a nonempty option list returns a member
  of that list; the user's pick is modelled as an index reduced mod the
  length of the option list.
-/

namespace AnalystBot

/-- One cell of the parsed table. -/
inductive Cell where
  | num (q : ℚ)
  | str (s : String)
  | bool (b : Bool)
  | missing
deriving DecidableEq

/-- pandas column dtypes as relevant to this app: `select_dtypes(['number'])`
picks `numeric`; `select_dtypes(['object','category'])` picks `object`. -/
inductive DType where
  | numeric
  | object
  | boolean
deriving DecidableEq

def Cell.isNum : Cell → Bool
  | .num _ => true
  | _ => false

def Cell.isMissing : Cell → Bool
  | .missing => true
  | _ => false

def Cell.isBool : Cell → Bool
  | .bool _ => true
  | _ => false

/-- A named column of cells. -/
structure Column where
  name : String
  cells : List Cell
deriving DecidableEq

/-- The parsed `DataFrame`: an ordered list of named columns. -/
structure Table where
  cols : List Column
deriving DecidableEq

/-- Every column holds one cell per row (`DataFrame`s are rectangular). -/
def Table.wellFormed (t : Table) (nrows : ℕ) : Prop :=
  ∀ c ∈ t.cols, c.cells.length = nrows

instance (t : Table) (n : ℕ) : Decidable (t.wellFormed n) := by
  unfold Table.wellFormed; infer_instance

/-- pandas dtype inference for a column read from CSV: all present values
numeric (missings allowed) ⇒ numeric dtype; all cells boolean ⇒ bool dtype
(a missing value forces object); otherwise object. -/
def dtype (c : Column) : DType :=
  if c.cells.all (fun x => x.isNum || x.isMissing) then .numeric
  else if c.cells.all Cell.isBool then .boolean
  else .object

/-- `df.notna().sum()` for one column: number of non-missing cells. -/
def nonNullCount (c : Column) : ℕ :=
  c.cells.countP (fun x => !x.isMissing)

/-- Number of missing cells of a column. -/
def missingCount (c : Column) : ℕ :=
  c.cells.countP Cell.isMissing

/-- The numeric columns, in table order: `df.select_dtypes(include=['number'])`. -/
def numericCols (t : Table) : List Column :=
  t.cols.filter (fun c => decide (dtype c = DType.numeric))

/-- `numerical_columns = df.select_dtypes(include=['number']).columns.tolist()`. -/
def numericalColumns (t : Table) : List String :=
  (numericCols t).map Column.name

/-- `categorical_columns = df.select_dtypes(include=['object','category']).columns.tolist()`. -/
def categoricalColumns (t : Table) : List String :=
  (t.cols.filter (fun c => decide (dtype c = DType.object))).map Column.name

/-- One row of `info_df`: column name, non-null count, dtype
(`app.py` lines 18-22). -/
structure InfoRow where
  column : String
  nonNull : ℕ
  dataType : DType
deriving DecidableEq

/-- `info_df = pd.DataFrame(Column=df.columns, Non-Null Count=df.notna().sum(),
Data Type=df.dtypes).reset_index(drop=True)`: one row per table column. -/
def info_df (t : Table) : List InfoRow :=
  t.cols.map (fun c => ⟨c.name, nonNullCount c, dtype c⟩)

/-- The columns `df.describe()` reports on (default `include=None`): the
numeric columns when at least one exists, otherwise every column
(all-object/bool frames are described with object-style metrics). -/
def describedCols (t : Table) : List Column :=
  if numericCols t = [] then t.cols else numericCols t

/-- The row labels of `df.describe()`: numeric-style metrics when a numeric
column exists, object-style metrics otherwise. -/
def describeMetrics (t : Table) : List String :=
  if numericCols t = [] then ["count", "unique", "top", "freq"]
  else ["count", "mean", "std", "min", "25%", "50%", "75%", "max"]

/-- Shape of `statistical_summary_df = df.describe().reset_index()
.rename(columns=(index -> Metric))` (`app.py` line 25): the `Metric` column
holds the metric labels, `columns` are the described table columns.  The
floating-point metric values themselves are delegated to the numerics
library and are not modelled; no claim concerns them. -/
structure SummaryDF where
  metrics : List String
  columns : List String
deriving DecidableEq

def statistical_summary_df (t : Table) : SummaryDF :=
  ⟨describeMetrics t, (describedCols t).map Column.name⟩

/-- Header row of `statistical_summary_df` as displayed: the renamed index
column `Metric` followed by the described columns. -/
def summaryHeader (t : Table) : List String :=
  "Metric" :: (statistical_summary_df t).columns

/-! ## Correlation matrix (`df[numerical_cols].corr()`, `app.py` lines 34-40)

pandas Pearson correlation: for each pair of columns it uses the
pairwise-complete observations (rows where both values are present),
centres both coordinates, and divides the cross sum by the product of the
root square-sums.  The `1/(n-1)` normalisations of covariance and standard
deviation cancel in the quotient, so unnormalised centred sums are used.
A zero variance (constant column, or no complete pair) makes the float
quotient `0/0 = NaN`, modelled as `none`. -/

/-- Numeric view of a (numeric-dtype) column: `some q` for a number, `none`
for a missing value. -/
def colVals (c : Column) : List (Option ℚ) :=
  c.cells.map (fun x => match x with | .num q => some q | _ => none)

/-- The values present in a column (non-missing entries). -/
def presentVals (c : Column) : List ℚ :=
  (colVals c).filterMap id

/-- Pairwise-complete observations of two columns. -/
def pairRows (xs ys : List (Option ℚ)) : List (ℚ × ℚ) :=
  (xs.zip ys).filterMap (fun p => match p with
    | (some x, some y) => some (x, y)
    | _ => none)

def meanOf (l : List ℚ) : ℚ := l.sum / l.length

def centered (l : List ℚ) : List ℚ := l.map (fun x => x - meanOf l)

/-- Dot product of two equally long lists. -/
def dotL (a b : List ℚ) : ℚ := ((a.zip b).map (fun p => p.1 * p.2)).sum

/-- Sum of squares. -/
def sqSum (l : List ℚ) : ℚ := (l.map (fun x => x ^ 2)).sum

/-- Centred variance (unnormalised) of a list of observations. -/
def varOf (l : List ℚ) : ℚ := sqSum (centered l)

/-- The three exact ingredients of one Pearson entry for a pair of columns:
centred cross sum, centred square sum of the first and of the second
coordinate, over the pairwise-complete observations. -/
def corrData (ci cj : Column) : ℚ × ℚ × ℚ :=
  (dotL (centered ((pairRows (colVals ci) (colVals cj)).map Prod.fst))
        (centered ((pairRows (colVals ci) (colVals cj)).map Prod.snd)),
   varOf ((pairRows (colVals ci) (colVals cj)).map Prod.fst),
   varOf ((pairRows (colVals ci) (colVals cj)).map Prod.snd))

/-- The real value of one correlation entry with cross sum `c` and variances
`v1`, `v2`; `none` models the float `NaN` produced when either variance
vanishes. -/
noncomputable def entryVal (c v1 v2 : ℚ) : Option ℝ :=
  if v1 = 0 ∨ v2 = 0 then none
  else some ((c : ℝ) / (Real.sqrt v1 * Real.sqrt v2))

def defaultColumn : Column := ⟨"", []⟩

/-- `corr_matrix = df[numerical_cols].corr()` represented by its exact
ingredients — computed (and the heatmap figure produced) only when
`len(numerical_cols) > 1` (`app.py` line 35). -/
def corrMatrixData (t : Table) : Option (List (List (ℚ × ℚ × ℚ))) :=
  if 1 < (numericCols t).length then
    some ((numericCols t).map (fun ci => (numericCols t).map (fun cj => corrData ci cj)))
  else none

/-- Real value of the Pearson entry of a pair of columns. -/
noncomputable def corrVal (ci cj : Column) : Option ℝ :=
  entryVal (corrData ci cj).1 (corrData ci cj).2.1 (corrData ci cj).2.2

/-- Real value of the correlation matrix entry at position `(i, j)`. -/
noncomputable def corrAt (t : Table) (i j : ℕ) : Option ℝ :=
  corrVal ((numericCols t).getD i defaultColumn) ((numericCols t).getD j defaultColumn)

/-! ## Display of the heatmap (`app.py` lines 86-94)

`analysis['correlation_matrix_fig']` is truthy exactly when the figure was
produced; `st.pyplot` and the explanatory `st.info` both sit inside that
`if`-branch, so nothing at all is displayed when the figure is absent. -/

def heatmapRendered (t : Table) : Bool := (corrMatrixData t).isSome

/-- The `st.info` call of the heatmap section is inside the
`if analysis['correlation_matrix_fig']:` branch. -/
def heatmapInfoShown (t : Table) : Bool := (corrMatrixData t).isSome

/-! ## The analysis "brain" (`professional_analysis`, `app.py` lines 13-42)

Each pandas call used (`df.notna()`, `df.describe()`, `df.select_dtypes`,
`df[cols].corr()`) returns a fresh object; the frame is threaded through
explicitly as state so that absence of mutation is a provable statement. -/

def describeColumns_op (df : Table) : List InfoRow × Table := (info_df df, df)

def describeStatistics_op (df : Table) : SummaryDF × Table := (statistical_summary_df df, df)

def correlationMatrix_op (df : Table) : Option (List (List (ℚ × ℚ × ℚ))) × Table :=
  (corrMatrixData df, df)

/-- The `analysis_results` dict: exactly three keys (`app.py` lines 27-31). -/
structure AnalysisResults where
  info : List InfoRow
  statisticalSummary : SummaryDF
  correlationMatrixFig : Option (List (List (ℚ × ℚ × ℚ)))
deriving DecidableEq

def professional_analysis (df : Table) : AnalysisResults × Table :=
  let r1 := describeColumns_op df
  let r2 := describeStatistics_op r1.2
  let r3 := correlationMatrix_op r2.2
  (⟨r1.1, r2.1, r3.1⟩, r3.2)

/-! ## Interactive plotting (`app.py` lines 100-141)

The selection widgets for each plot type exist (as Python locals) exactly
when that plot type is chosen and its column-availability guard holds; the
chart branch then requires the same locals, and the `st.info` fallback fires
precisely when no branch generated a plot. -/

inductive PlotType where
  | histogram
  | barChart
  | scatterPlot
deriving DecidableEq

/-- The user's selectbox picks (indices into the offered option lists). -/
structure PlotPicks where
  a : ℕ
  b : ℕ

/-- A Streamlit selectbox over a nonempty option list always returns one of
the options; the user's pick is an index reduced mod the list length. -/
def selectbox (options : List String) (pick : ℕ) : String :=
  options.getD (pick % options.length) ""

/-- `selected_col` exists iff `plot_type == "Histogram" and numerical_columns`. -/
def histLocal (t : Table) (kind : PlotType) (p : PlotPicks) : Option String :=
  if kind = .histogram ∧ numericalColumns t ≠ [] then
    some (selectbox (numericalColumns t) p.a)
  else none

/-- `selected_cat_col`/`selected_num_col` exist iff the bar-chart guard held. -/
def barLocals (t : Table) (kind : PlotType) (p : PlotPicks) : Option (String × String) :=
  if kind = .barChart ∧ categoricalColumns t ≠ [] ∧ numericalColumns t ≠ [] then
    some (selectbox (categoricalColumns t) p.a, selectbox (numericalColumns t) p.b)
  else none

/-- `x_axis`/`y_axis` exist iff the scatter guard held (`app.py` line 115). -/
def scatterLocals (t : Table) (kind : PlotType) (p : PlotPicks) : Option (String × String) :=
  if kind = .scatterPlot ∧ 2 ≤ (numericalColumns t).length then
    some (selectbox (numericalColumns t) p.a, selectbox (numericalColumns t) p.b)
  else none

/-- Default index of the y-axis selectbox
(`index=1 if len(numerical_columns) > 1 else 0`, `app.py` line 117). -/
def scatterDefaultY (t : Table) : ℕ :=
  if 1 < (numericalColumns t).length then 1 else 0

/-- The pre-selected scatter axes when the scatter selectors are offered:
x defaults to index 0, y to `scatterDefaultY`. -/
def scatterDefaults (t : Table) : Option (String × String) :=
  if 2 ≤ (numericalColumns t).length then
    some ((numericalColumns t).getD 0 "", (numericalColumns t).getD (scatterDefaultY t) "")
  else none

/-- `plot_generated` after the `if`/`elif` chain of `app.py` lines 121-136:
each branch re-tests the plot type and requires its locals to exist. -/
def plot_generated (t : Table) (kind : PlotType) (p : PlotPicks) : Bool :=
  if kind = .histogram ∧ (histLocal t kind p).isSome then true
  else if kind = .barChart ∧ (barLocals t kind p).isSome then true
  else if kind = .scatterPlot ∧ (scatterLocals t kind p).isSome then true
  else false

/-- The `st.info` fallback of `app.py` line 141 fires iff no plot was made. -/
def plotInfoShown (t : Table) (kind : PlotType) (p : PlotPicks) : Bool :=
  !plot_generated t kind p

/-! ## Report assembly (`report_contents`, `app.py` lines 146-155) -/

def renderDType : DType → String
  | .numeric => "float64"
  | .object => "object"
  | .boolean => "bool"

/-- One printed line of `info_df.to_string()` (index, then the fields). -/
def renderInfoRow (p : ℕ × InfoRow) : String :=
  toString p.1 ++ "  " ++ p.2.column ++ "  " ++ toString p.2.nonNull ++ "  "
    ++ renderDType p.2.dataType

/-- `info_df.to_string()`: header line then one line per row. -/
def renderInfoDF (rows : List InfoRow) : String :=
  String.intercalate "\n"
    ("   Column  Non-Null Count  Data Type" :: rows.enum.map renderInfoRow)

/-- `statistical_summary_df.to_string()`: header of column names, then the
metric labels (the float entries are library output and not modelled). -/
def renderSummaryDF (s : SummaryDF) : String :=
  String.intercalate "  " ("Metric" :: s.columns) ++ "\n"
    ++ String.intercalate "\n" s.metrics

def reportHeader : String :=
  "PROFESSIONAL DATA ANALYSIS REPORT\n====================================\n\n1. DATA INFORMATION\n-------------------\n"

def reportMid : String :=
  "\n\n2. STATISTICAL SUMMARY\n----------------------\n"

/-- `report_contents` (`app.py` lines 146-155): fixed header, the rendered
`info_df`, a fixed separator with the second section title, the rendered
statistical summary. -/
def report_contents (t : Table) : String :=
  reportHeader ++ renderInfoDF (info_df t) ++ reportMid
    ++ renderSummaryDF (statistical_summary_df t)

/-! ## CSV parsing (`pd.read_csv`, `app.py` line 60)

`read_csv` semantics as exercised by the app: split into lines (blank lines
skipped), first line is the header.  The expected field count is the wider
of the header and the first data row; when the first data row is wider than
the header, its extra leading fields (and those of every row) become the
row index, which is not a column of the frame.  A row wider than the
expected field count raises `ParserError`; a short row is padded with
`NaN`.  An upload with no content raises `EmptyDataError`; fields parse as
numbers, booleans (`True`/`False`), or fall back to strings; an empty field
is missing.  The exception propagates uncaught, so a failing parse aborts
the script before any analysis runs. -/

def splitListOn (sep : Char) : List Char → List (List Char)
  | [] => [[]]
  | c :: rest =>
    let r := splitListOn sep rest
    if c = sep then [] :: r
    else
      match r with
      | [] => [[c]]
      | h :: tl => (c :: h) :: tl

def digitsToNat (l : List Char) : ℕ :=
  l.foldl (fun n c => n * 10 + (c.toNat - 48)) 0

def parseNatChars (l : List Char) : Option ℕ :=
  if l ≠ [] ∧ l.all Char.isDigit then some (digitsToNat l) else none

/-- Decimal literals, optionally signed, with an optional fractional part. -/
def parseRatChars (l : List Char) : Option ℚ :=
  let sb : ℚ × List Char :=
    match l with
    | '-' :: rest => (-1, rest)
    | _ => (1, l)
  match splitListOn '.' sb.2 with
  | [a] => (parseNatChars a).map (fun n => sb.1 * n)
  | [a, b] =>
    match parseNatChars a, parseNatChars b with
    | some n, some f => some (sb.1 * ((n : ℚ) + (f : ℚ) / 10 ^ b.length))
    | _, _ => none
  | _ => none

def parseCell (l : List Char) : Cell :=
  if l = [] then .missing
  else if l = ['T', 'r', 'u', 'e'] then .bool true
  else if l = ['F', 'a', 'l', 's', 'e'] then .bool false
  else
    match parseRatChars l with
    | some q => .num q
    | none => .str (String.mk l)

def parseCSVLines (lines : List (List Char)) : Except String Table :=
  match lines with
  | [] => .error "EmptyDataError: No columns to parse from file"
  | header :: rest =>
    let names := splitListOn ',' header
    let firstWidth :=
      match rest with
      | [] => names.length
      | r :: _ => (splitListOn ',' r).length
    let width := max names.length firstWidth
    if rest.any (fun r => width < (splitListOn ',' r).length) then
      .error "ParserError: Error tokenizing data"
    else
      let idxCols := firstWidth - names.length
      let rows := rest.map (fun r => (splitListOn ',' r).map parseCell)
      .ok ⟨names.enum.map
        (fun p => ⟨String.mk p.2,
          rows.map (fun row => row.getD (idxCols + p.1) Cell.missing)⟩)⟩

def parseCSV (s : String) : Except String Table :=
  parseCSVLines ((splitListOn '\n' s.data).filter (fun l => l ≠ []))

/-! ## The page body after upload (`app.py` lines 59-161) -/

/-- `df.head()`: the preview shows the first 5 rows. -/
def headTable (t : Table) : Table :=
  ⟨t.cols.map (fun c => ⟨c.name, c.cells.take 5⟩)⟩

/-- Everything the page derives from a successfully parsed table. -/
structure AppOutputs where
  preview : Table
  analysis : AnalysisResults
  report : String

def appBody (t : Table) : AppOutputs :=
  ⟨headTable t, (professional_analysis t).1, report_contents t⟩

/-- The script body for one uploaded file: parse, then derive all outputs;
a parse failure aborts with the error and produces nothing. -/
def runApp (s : String) : Except String AppOutputs :=
  (parseCSV s).map appBody

/-! ## Concrete tables used as witnesses and counterexamples -/

/-- One numeric and one text column, one missing value. -/
def exMixed : Table := ⟨[⟨"id", [.num 1, .num 2]⟩, ⟨"name", [.str "u", .missing]⟩]⟩

/-- A single text column: no numeric columns at all. -/
def exAllText : Table := ⟨[⟨"name", [.str "u", .str "v"]⟩]⟩

/-- Exactly one numeric column (plus a text column). -/
def exOneNum : Table := ⟨[⟨"x", [.num 1, .num 2]⟩, ⟨"name", [.str "u", .str "v"]⟩]⟩

/-- Two non-constant numeric columns. -/
def exTwoNum : Table := ⟨[⟨"a", [.num 1, .num 2]⟩, ⟨"b", [.num 2, .num 5]⟩]⟩

/-- Two numeric columns, the first constant (zero variance). -/
def exConstNum : Table := ⟨[⟨"a", [.num 1, .num 1]⟩, ⟨"b", [.num 1, .num 2]⟩]⟩

/-! ## Helper lemmas -/

lemma nonNull_add_missing (l : List Cell) :
    l.countP (fun x => !x.isMissing) + l.countP Cell.isMissing = l.length := by
  induction l with
  | nil => rfl
  | cons x xs ih =>
    by_cases h : x.isMissing = true <;>
      · simp [List.countP_cons, h]
        omega

lemma selectbox_mem (options : List String) (pick : ℕ) (h : options ≠ []) :
    selectbox options pick ∈ options := by
  unfold selectbox
  have hl : 0 < options.length := List.length_pos.mpr h
  have hm : pick % options.length < options.length := Nat.mod_lt _ hl
  rw [List.getD_eq_getElem _ _ hm]
  exact List.getElem_mem hm

lemma dotL_nil_left (b : List ℚ) : dotL [] b = 0 := by simp [dotL]

lemma dotL_nil_right (a : List ℚ) : dotL a [] = 0 := by simp [dotL]

lemma dotL_cons (x y : ℚ) (xs ys : List ℚ) :
    dotL (x :: xs) (y :: ys) = x * y + dotL xs ys := by
  simp [dotL, List.zip_cons_cons]

lemma dotL_comm (a : List ℚ) : ∀ b, dotL a b = dotL b a := by
  induction a with
  | nil => intro b; cases b <;> simp [dotL]
  | cons x xs ih =>
    intro b
    cases b with
    | nil => simp [dotL]
    | cons y ys => rw [dotL_cons, dotL_cons, ih, mul_comm]

lemma dotL_self (a : List ℚ) : dotL a a = sqSum a := by
  induction a with
  | nil => simp [dotL, sqSum]
  | cons x xs ih => rw [dotL_cons, ih]; simp [sqSum, sq]

lemma sqSum_nonneg (a : List ℚ) : 0 ≤ sqSum a := by
  refine List.sum_nonneg ?_
  intro x hx
  obtain ⟨y, _, rfl⟩ := List.mem_map.mp hx
  exact sq_nonneg y

lemma dotL_eq_sum (a : List ℚ) :
    ∀ b : List ℚ, b.length = a.length →
      dotL a b = ∑ i ∈ Finset.range a.length, a.getD i 0 * b.getD i 0 := by
  induction a with
  | nil => intro b _; simp [dotL]
  | cons x xs ih =>
    intro b hb
    cases b with
    | nil => simp at hb
    | cons y ys =>
      rw [dotL_cons, List.length_cons, Finset.sum_range_succ']
      simp only [List.getD_cons_succ, List.getD_cons_zero]
      rw [ih ys (by simpa using hb), add_comm]

lemma sqSum_eq_sum (a : List ℚ) :
    sqSum a = ∑ i ∈ Finset.range a.length, a.getD i 0 ^ 2 := by
  rw [← dotL_self, dotL_eq_sum a a rfl]
  exact Finset.sum_congr rfl (fun i _ => (sq (a.getD i 0)).symm)

/-- Cauchy-Schwarz for the list dot product. -/
lemma dotL_sq_le (a b : List ℚ) (h : b.length = a.length) :
    dotL a b ^ 2 ≤ sqSum a * sqSum b := by
  rw [dotL_eq_sum a b h, sqSum_eq_sum a, sqSum_eq_sum b, h]
  exact Finset.sum_mul_sq_le_sq_mul_sq _ _ _

lemma pairRows_cons_some (x y : ℚ) (xs ys : List (Option ℚ)) :
    pairRows (some x :: xs) (some y :: ys) = (x, y) :: pairRows xs ys := by
  simp [pairRows, List.zip_cons_cons]

lemma pairRows_cons_none_left (b : Option ℚ) (xs ys : List (Option ℚ)) :
    pairRows (none :: xs) (b :: ys) = pairRows xs ys := by
  cases b <;> simp [pairRows, List.zip_cons_cons]

lemma pairRows_cons_none_right (a : Option ℚ) (xs ys : List (Option ℚ)) :
    pairRows (a :: xs) (none :: ys) = pairRows xs ys := by
  cases a <;> simp [pairRows, List.zip_cons_cons]

lemma pairRows_swap (xs : List (Option ℚ)) :
    ∀ ys, pairRows ys xs = (pairRows xs ys).map (fun p => (p.2, p.1)) := by
  induction xs with
  | nil => intro ys; cases ys <;> simp [pairRows]
  | cons x xt ih =>
    intro ys
    cases ys with
    | nil => simp [pairRows]
    | cons y yt =>
      cases x with
      | none =>
        rw [pairRows_cons_none_right, pairRows_cons_none_left, ih]
      | some xv =>
        cases y with
        | none => rw [pairRows_cons_none_left, pairRows_cons_none_right, ih]
        | some yv =>
          rw [pairRows_cons_some, pairRows_cons_some, List.map_cons, ih]

lemma pairRows_self (xs : List (Option ℚ)) :
    pairRows xs xs = (xs.filterMap id).map (fun x => (x, x)) := by
  induction xs with
  | nil => simp [pairRows]
  | cons x xt ih =>
    cases x with
    | none => rw [pairRows_cons_none_left, ih]; simp
    | some xv => rw [pairRows_cons_some, ih]; simp

lemma centered_length (l : List ℚ) : (centered l).length = l.length := by
  simp [centered]

lemma corrData_symm (ci cj : Column) :
    corrData cj ci = ((corrData ci cj).1, (corrData ci cj).2.2, (corrData ci cj).2.1) := by
  unfold corrData
  rw [pairRows_swap]
  have h1 : ((pairRows (colVals ci) (colVals cj)).map (fun p => (p.2, p.1))).map Prod.fst
      = (pairRows (colVals ci) (colVals cj)).map Prod.snd := by
    rw [List.map_map]; rfl
  have h2 : ((pairRows (colVals ci) (colVals cj)).map (fun p => (p.2, p.1))).map Prod.snd
      = (pairRows (colVals ci) (colVals cj)).map Prod.fst := by
    rw [List.map_map]; rfl
  rw [h1, h2, dotL_comm]

lemma entryVal_swap (c v1 v2 : ℚ) : entryVal c v2 v1 = entryVal c v1 v2 := by
  unfold entryVal
  by_cases h : v1 = 0 ∨ v2 = 0
  · rw [if_pos (Or.symm h), if_pos h]
  · rw [if_neg (fun hc => h (Or.symm hc)), if_neg h, mul_comm]

lemma corrVal_symm (ci cj : Column) : corrVal cj ci = corrVal ci cj := by
  unfold corrVal
  rw [corrData_symm ci cj]
  exact entryVal_swap _ _ _

/-- The Cauchy-Schwarz bound for the ingredients of one Pearson entry. -/
lemma corrData_csq (ci cj : Column) :
    (corrData ci cj).1 ^ 2 ≤ (corrData ci cj).2.1 * (corrData ci cj).2.2 := by
  simp only [corrData, varOf]
  exact dotL_sq_le _ _ (by rw [centered_length, centered_length,
    List.length_map, List.length_map])

lemma corrData_v1_nonneg (ci cj : Column) : 0 ≤ (corrData ci cj).2.1 := by
  simp only [corrData, varOf]
  exact sqSum_nonneg _

lemma corrData_v2_nonneg (ci cj : Column) : 0 ≤ (corrData ci cj).2.2 := by
  simp only [corrData, varOf]
  exact sqSum_nonneg _

/-- Any defined value of `entryVal` with Cauchy-Schwarz-compatible
ingredients lies in `[-1, 1]`. -/
lemma entryVal_bounds (c v1 v2 : ℚ) (hcs : c ^ 2 ≤ v1 * v2)
    (hv1 : 0 ≤ v1) (hv2 : 0 ≤ v2) (r : ℝ)
    (h : entryVal c v1 v2 = some r) : -1 ≤ r ∧ r ≤ 1 := by
  unfold entryVal at h
  by_cases h0 : v1 = 0 ∨ v2 = 0
  · rw [if_pos h0] at h; cases h
  · rw [if_neg h0] at h
    push_neg at h0
    have hval := Option.some.inj h
    have hA0 : 0 < v1 := lt_of_le_of_ne hv1 (Ne.symm h0.1)
    have hB0 : 0 < v2 := lt_of_le_of_ne hv2 (Ne.symm h0.2)
    have hAR : (0 : ℝ) < (v1 : ℝ) := by exact_mod_cast hA0
    have hBR : (0 : ℝ) < (v2 : ℝ) := by exact_mod_cast hB0
    have hcsR : ((c : ℝ)) ^ 2 ≤ (v1 : ℝ) * (v2 : ℝ) := by exact_mod_cast hcs
    have habs : |(c : ℝ)| ≤ Real.sqrt v1 * Real.sqrt v2 := by
      rw [← Real.sqrt_sq_eq_abs, ← Real.sqrt_mul hAR.le]
      exact Real.sqrt_le_sqrt hcsR
    have hden : 0 < Real.sqrt v1 * Real.sqrt v2 :=
      mul_pos (Real.sqrt_pos.mpr hAR) (Real.sqrt_pos.mpr hBR)
    have habs1 : |r| ≤ 1 := by
      rw [← hval, abs_div, abs_of_pos hden]
      exact (div_le_one hden).mpr habs
    exact abs_le.mp habs1

/-- Every defined Pearson entry lies in `[-1, 1]`. -/
lemma corrVal_bounds (ci cj : Column) (r : ℝ)
    (h : corrVal ci cj = some r) : -1 ≤ r ∧ r ≤ 1 :=
  entryVal_bounds _ _ _ (corrData_csq ci cj) (corrData_v1_nonneg ci cj)
    (corrData_v2_nonneg ci cj) r h

/-- The ingredients of a diagonal entry: all three are the variance of the
column's present values. -/
lemma corrData_self (ci : Column) :
    corrData ci ci
      = (varOf (presentVals ci), varOf (presentVals ci), varOf (presentVals ci)) := by
  unfold corrData
  rw [pairRows_self]
  have hfst : (((colVals ci).filterMap id).map (fun x => (x, x))).map Prod.fst
      = presentVals ci := by
    rw [List.map_map]
    exact List.map_id' _
  have hsnd : (((colVals ci).filterMap id).map (fun x => (x, x))).map Prod.snd
      = presentVals ci := by
    rw [List.map_map]
    exact List.map_id' _
  rw [hfst, hsnd]
  unfold varOf
  rw [dotL_self]

/-- A diagonal entry with nonzero variance equals 1. -/
lemma corrVal_diag (ci : Column) (h : varOf (presentVals ci) ≠ 0) :
    corrVal ci ci = some 1 := by
  unfold corrVal
  rw [corrData_self]
  have hpos : 0 < varOf (presentVals ci) := by
    have := sqSum_nonneg (centered (presentVals ci))
    unfold varOf at *
    exact lt_of_le_of_ne this (Ne.symm h)
  unfold entryVal
  rw [if_neg (by simp [h])]
  have hR : (0 : ℝ) < ((varOf (presentVals ci) : ℚ) : ℝ) := by exact_mod_cast hpos
  rw [Real.mul_self_sqrt hR.le, div_self hR.ne']

/-! ## Claim theorems -/

/-- C5: for every parsed Table with at least one row, `describeColumns`
(`info_df`) returns exactly one Column Summary entry per input column, in
order, and for every column the reported non-null count equals total rows
minus the column's missing-value count, hence is at most the row count. -/
theorem describeColumns_entries (t : Table) (n : ℕ)
    (hw : t.wellFormed n) (hn : 1 ≤ n) :
    (info_df t).length = t.cols.length
    ∧ (info_df t).map InfoRow.column = t.cols.map Column.name
    ∧ ∀ c ∈ t.cols, nonNullCount c = n - missingCount c ∧ nonNullCount c ≤ n := by
  refine ⟨by simp [info_df], by simp [info_df], fun c hc => ?_⟩
  have hlen := hw c hc
  have hsum := nonNull_add_missing c.cells
  unfold nonNullCount missingCount
  omega

theorem describeColumns_entries_witness :
    (info_df exMixed).length = exMixed.cols.length
    ∧ (info_df exMixed).map InfoRow.column = exMixed.cols.map Column.name
    ∧ ∀ c ∈ exMixed.cols, nonNullCount c = 2 - missingCount c ∧ nonNullCount c ≤ 2 :=
  describeColumns_entries exMixed 2 (by decide) (by decide)

/-- C2: `buildReport` (`report_contents`) is the concatenation of a fixed
header, the text rendering of the Column Summary, a fixed section separator,
and the text rendering of the Statistical Summary, in that fixed order;
consequently both renderings occur verbatim as substrings of the report. -/
theorem buildReport_concatenation (t : Table) :
    report_contents t
      = reportHeader ++ renderInfoDF (info_df t) ++ reportMid
          ++ renderSummaryDF (statistical_summary_df t)
    ∧ (∃ u v, report_contents t = u ++ renderInfoDF (info_df t) ++ v)
    ∧ (∃ u v, report_contents t = u ++ renderSummaryDF (statistical_summary_df t) ++ v) := by
  refine ⟨rfl,
    ⟨reportHeader, reportMid ++ renderSummaryDF (statistical_summary_df t), ?_⟩,
    ⟨reportHeader ++ renderInfoDF (info_df t) ++ reportMid, "", ?_⟩⟩
  · simp [report_contents, String.append_assoc]
  · simp [report_contents, String.append_assoc]

/-- C8: the analysis operations do not mutate the Table: the frame coming
out of `professional_analysis` is the frame that went in, and the result
consists of exactly the two summaries and the optional heatmap figure. -/
theorem analysis_no_mutation (df : Table) :
    (professional_analysis df).2 = df
    ∧ (professional_analysis df).1
      = ⟨info_df df, statistical_summary_df df, corrMatrixData df⟩ :=
  ⟨rfl, rfl⟩

/-- C9: when parsing the uploaded bytes fails, the failure is atomic: the
script aborts with that very error, producing no table, no summaries, no
correlation matrix and no report. -/
theorem parse_failure_atomic (s e : String)
    (h : parseCSV s = Except.error e) :
    runApp s = Except.error e := by
  unfold runApp
  rw [h]
  rfl

theorem parse_failure_atomic_witness :
    parseCSV "a,b\n1,2\n1,2,3" = Except.error "ParserError: Error tokenizing data"
    ∧ runApp "a,b\n1,2\n1,2,3" = Except.error "ParserError: Error tokenizing data" :=
  ⟨by rfl, parse_failure_atomic _ _ (by rfl)⟩

/-- C4 (amended): with fewer than two numeric columns `correlationMatrix`
is `None` as a normal outcome and the heatmap is not rendered; however no
informational message is shown in its place — the heatmap section (pyplot
and its `st.info` text alike) is simply skipped. -/
theorem corrMatrix_absent_amended (t : Table)
    (h : (numericCols t).length < 2) :
    corrMatrixData t = none
    ∧ heatmapRendered t = false
    ∧ heatmapInfoShown t = false := by
  have hn : ¬ 1 < (numericCols t).length := by omega
  exact ⟨by simp [corrMatrixData, hn],
    by simp [heatmapRendered, corrMatrixData, hn],
    by simp [heatmapInfoShown, corrMatrixData, hn]⟩

theorem corrMatrix_absent_amended_witness :
    corrMatrixData exAllText = none
    ∧ heatmapRendered exAllText = false
    ∧ heatmapInfoShown exAllText = false :=
  corrMatrix_absent_amended exAllText (by decide)

/-- C4 (counterexample to the claim as stated): a table with a single
numeric column, where the correlation figure is absent and the heatmap is
skipped, but no informational message is shown in its place — contradicting
the claim that one is shown. -/
theorem heatmap_no_message_cex :
    (numericCols exOneNum).length < 2
    ∧ corrMatrixData exOneNum = none
    ∧ heatmapRendered exOneNum = false
    ∧ heatmapInfoShown exOneNum = false :=
  ⟨by decide, by rfl, by rfl, by rfl⟩

/-- C7: whenever a chart selection's preconditions are not met (Histogram
with no numeric columns; Bar Chart with no categorical or no numeric
columns; Scatter Plot with fewer than two numeric columns), no chart is
produced and the informational message is presented instead. -/
theorem chart_precondition_info (t : Table) (kind : PlotType) (p : PlotPicks)
    (h : (kind = .histogram ∧ numericalColumns t = [])
       ∨ (kind = .barChart ∧ (categoricalColumns t = [] ∨ numericalColumns t = []))
       ∨ (kind = .scatterPlot ∧ (numericalColumns t).length < 2)) :
    plot_generated t kind p = false ∧ plotInfoShown t kind p = true := by
  have hgen : plot_generated t kind p = false := by
    rcases h with ⟨hk, hn⟩ | ⟨hk, hcn⟩ | ⟨hk, hn⟩
    · subst hk
      simp [plot_generated, histLocal, barLocals, scatterLocals, hn]
    · subst hk
      rcases hcn with hc | hn
      · simp [plot_generated, histLocal, barLocals, scatterLocals, hc]
      · simp [plot_generated, histLocal, barLocals, scatterLocals, hn]
    · subst hk
      have hlt : ¬ 2 ≤ (numericalColumns t).length := by omega
      simp [plot_generated, histLocal, barLocals, scatterLocals, hlt]
  exact ⟨hgen, by simp [plotInfoShown, hgen]⟩

theorem chart_precondition_info_witness :
    plot_generated exAllText .histogram ⟨0, 0⟩ = false
    ∧ plotInfoShown exAllText .histogram ⟨0, 0⟩ = true :=
  chart_precondition_info exAllText .histogram ⟨0, 0⟩ (Or.inl ⟨rfl, by decide⟩)

/-- C1 (amended): when at least one numeric column exists, the columns of
the Statistical Summary are exactly the numeric columns of the Table (under
unique column names: a Table column appears iff it is numeric); when no
numeric column exists, `df.describe()` does not return an empty summary but
falls back to describing every column with object-style metrics. -/
theorem describe_covers_numeric_amended (t : Table)
    (hnd : (t.cols.map Column.name).Nodup) :
    (numericCols t ≠ [] →
      ∀ c ∈ t.cols,
        (c.name ∈ (statistical_summary_df t).columns ↔ dtype c = DType.numeric))
    ∧ (numericCols t = [] →
        (statistical_summary_df t).columns = t.cols.map Column.name
        ∧ (statistical_summary_df t).metrics = ["count", "unique", "top", "freq"]) := by
  have hfilter : numericCols t
      = t.cols.filter (fun c => decide (dtype c = DType.numeric)) := rfl
  constructor
  · intro hne c hc
    have hcols : (statistical_summary_df t).columns = (numericCols t).map Column.name := by
      simp [statistical_summary_df, describedCols, hne]
    rw [hcols, hfilter]
    constructor
    · intro hmem
      obtain ⟨c', hc', hname⟩ := List.mem_map.mp hmem
      have hc'cols : c' ∈ t.cols := (List.mem_filter.mp hc').1
      have hceq : c' = c := List.inj_on_of_nodup_map hnd hc'cols hc hname
      subst hceq
      exact of_decide_eq_true (List.mem_filter.mp hc').2
    · intro hdt
      exact List.mem_map.mpr ⟨c, List.mem_filter.mpr ⟨hc, decide_eq_true hdt⟩, rfl⟩
  · intro he
    exact ⟨by simp [statistical_summary_df, describedCols, he],
      by simp [statistical_summary_df, describeMetrics, he]⟩

theorem describe_covers_numeric_amended_witness :
    "id" ∈ (statistical_summary_df exMixed).columns
    ∧ "name" ∉ (statistical_summary_df exMixed).columns := by
  constructor
  · exact ((describe_covers_numeric_amended exMixed (by decide)).1 (by decide)
      ⟨"id", [.num 1, .num 2]⟩ (by decide)).mpr (by decide)
  · intro hmem
    have hdt := ((describe_covers_numeric_amended exMixed (by decide)).1 (by decide)
      ⟨"name", [.str "u", .missing]⟩ (by decide)).mp hmem
    exact absurd hdt (by decide)

/-- C1 (counterexample to the claim as stated): a table with zero numeric
columns for which `describeStatistics` returns a non-empty summary (it
describes the text column), not the empty summary the claim demands. -/
theorem describe_empty_summary_cex :
    numericCols exAllText = []
    ∧ (statistical_summary_df exAllText).columns = ["name"]
    ∧ (statistical_summary_df exAllText).columns ≠ [] :=
  ⟨by decide, by decide, by decide⟩

/-- C6 (amended): a scatter chart is emitted iff the plot kind is
ScatterPlot and the table has at least two numeric columns; the two
selected axis columns are always numeric (the selectors offer only numeric
columns), but they need not be distinct — equal selections still emit. -/
theorem scatter_emitted_amended (t : Table) (p : PlotPicks) :
    (plot_generated t .scatterPlot p = true ↔ 2 ≤ (numericalColumns t).length)
    ∧ ∀ x y, scatterLocals t .scatterPlot p = some (x, y)
        → x ∈ numericalColumns t ∧ y ∈ numericalColumns t := by
  constructor
  · constructor
    · intro hg
      by_contra hlt
      have hnone : scatterLocals t .scatterPlot p = none := by
        simp [scatterLocals, hlt]
      simp [plot_generated, histLocal, barLocals, hnone] at hg
    · intro hle
      have hs : (scatterLocals t .scatterPlot p).isSome = true := by
        simp [scatterLocals, hle]
      simp [plot_generated, histLocal, barLocals, hs]
  · intro x y hxy
    unfold scatterLocals at hxy
    by_cases hc : PlotType.scatterPlot = PlotType.scatterPlot
        ∧ 2 ≤ (numericalColumns t).length
    · rw [if_pos hc] at hxy
      have hne : numericalColumns t ≠ [] := by
        intro h0
        rw [h0] at hc
        simp at hc
      obtain ⟨rfl, rfl⟩ := Prod.mk.inj (Option.some.inj hxy).symm
      exact ⟨selectbox_mem _ _ hne, selectbox_mem _ _ hne⟩
    · rw [if_neg hc] at hxy
      cases hxy

theorem scatter_emitted_amended_witness :
    plot_generated exTwoNum .scatterPlot ⟨0, 1⟩ = true
    ∧ "a" ∈ numericalColumns exTwoNum ∧ "b" ∈ numericalColumns exTwoNum :=
  ⟨(scatter_emitted_amended exTwoNum ⟨0, 1⟩).1.mpr (by decide),
   (scatter_emitted_amended exTwoNum ⟨0, 1⟩).2 "a" "b" (by decide)⟩

/-- C6 (counterexample to the claim as stated): with two numeric columns
the user can select the same column for both axes and the scatter chart is
still emitted, contradicting "equal selection ⇒ no chart". -/
theorem scatter_equal_selection_cex :
    scatterLocals exTwoNum .scatterPlot ⟨0, 0⟩ = some ("a", "a")
    ∧ plot_generated exTwoNum .scatterPlot ⟨0, 0⟩ = true :=
  ⟨by decide, by decide⟩

/-- C10: whenever the scatter selectors are offered (at least two numeric
columns), the `else`-branch default index 0 is unreachable: the default
x axis is the first numeric column and the default y axis the second, and
under unique column names the two defaults are distinct. -/
theorem scatter_defaults_first_two (t : Table)
    (h2 : 2 ≤ (numericalColumns t).length)
    (hnd : (t.cols.map Column.name).Nodup) :
    scatterDefaultY t = 1
    ∧ scatterDefaults t
        = some ((numericalColumns t).getD 0 "", (numericalColumns t).getD 1 "")
    ∧ (numericalColumns t).getD 0 "" ≠ (numericalColumns t).getD 1 "" := by
  have h1 : 1 < (numericalColumns t).length := by omega
  have hY : scatterDefaultY t = 1 := by simp [scatterDefaultY, h1]
  refine ⟨hY, by simp [scatterDefaults, h2, hY], ?_⟩
  have hnodup : (numericalColumns t).Nodup := by
    have hsub : (numericalColumns t).Sublist (t.cols.map Column.name) :=
      List.Sublist.map Column.name (List.filter_sublist t.cols)
    exact hsub.nodup hnd
  have h0 : 0 < (numericalColumns t).length := by omega
  rw [List.getD_eq_getElem _ _ h0, List.getD_eq_getElem _ _ h1]
  intro heq
  have h01 := (List.Nodup.getElem_inj_iff hnodup).mp heq
  omega

theorem scatter_defaults_first_two_witness :
    scatterDefaultY exTwoNum = 1
    ∧ scatterDefaults exTwoNum
        = some ((numericalColumns exTwoNum).getD 0 "", (numericalColumns exTwoNum).getD 1 "")
    ∧ (numericalColumns exTwoNum).getD 0 "" ≠ (numericalColumns exTwoNum).getD 1 "" :=
  scatter_defaults_first_two exTwoNum (by decide) (by decide)

lemma getD_corr_map (nc : List Column) (i j : ℕ)
    (hi : i < nc.length) (hj : j < nc.length) :
    ((nc.map (fun ci => nc.map (fun cj => corrData ci cj))).getD i []).getD j (0, 0, 0)
      = corrData (nc.getD i defaultColumn) (nc.getD j defaultColumn) := by
  have hi' : i < (nc.map (fun ci => nc.map (fun cj => corrData ci cj))).length := by
    simpa using hi
  rw [List.getD_eq_getElem _ _ hi']
  simp only [List.getElem_map]
  have hj' : j < (nc.map (fun cj => corrData nc[i] cj)).length := by simpa using hj
  rw [List.getD_eq_getElem _ _ hj']
  simp only [List.getElem_map]
  rw [List.getD_eq_getElem _ _ hi, List.getD_eq_getElem _ _ hj]

/-- C3 (amended): with at least two numeric columns the correlation matrix
is computed and is square over the numeric columns; its entries are the
Pearson data of the corresponding column pairs; the matrix of values is
symmetric; every defined (non-NaN) value lies in `[-1, 1]`; and every
diagonal entry whose column has nonzero variance over its observed rows is
1.  (A zero-variance column yields NaN — `none` — entries, including on the
diagonal, which is what the original claim missed.) -/
theorem corrMatrix_props_amended (t : Table)
    (h2 : 1 < (numericCols t).length) :
    ∃ M, corrMatrixData t = some M
      ∧ M.length = (numericCols t).length
      ∧ (∀ row ∈ M, row.length = (numericCols t).length)
      ∧ (∀ i j, i < (numericCols t).length → j < (numericCols t).length →
          (M.getD i []).getD j (0, 0, 0)
            = corrData ((numericCols t).getD i defaultColumn)
                ((numericCols t).getD j defaultColumn))
      ∧ (∀ i j, corrAt t i j = corrAt t j i)
      ∧ (∀ i j r, corrAt t i j = some r → -1 ≤ r ∧ r ≤ 1)
      ∧ (∀ i, varOf (presentVals ((numericCols t).getD i defaultColumn)) ≠ 0 →
          corrAt t i i = some 1) := by
  refine ⟨(numericCols t).map (fun ci => (numericCols t).map (fun cj => corrData ci cj)),
    by simp [corrMatrixData, h2], by simp, ?_, ?_, ?_, ?_, ?_⟩
  · intro row hrow
    obtain ⟨ci, _, rfl⟩ := List.mem_map.mp hrow
    simp
  · intro i j hi hj
    exact getD_corr_map (numericCols t) i j hi hj
  · intro i j
    unfold corrAt
    exact (corrVal_symm _ _).symm
  · intro i j r h
    exact corrVal_bounds _ _ r h
  · intro i h
    unfold corrAt
    exact corrVal_diag _ h

theorem corrMatrix_props_amended_witness :
    ∃ M, corrMatrixData exTwoNum = some M
      ∧ M.length = (numericCols exTwoNum).length
      ∧ (∀ row ∈ M, row.length = (numericCols exTwoNum).length)
      ∧ (∀ i j, i < (numericCols exTwoNum).length → j < (numericCols exTwoNum).length →
          (M.getD i []).getD j (0, 0, 0)
            = corrData ((numericCols exTwoNum).getD i defaultColumn)
                ((numericCols exTwoNum).getD j defaultColumn))
      ∧ (∀ i j, corrAt exTwoNum i j = corrAt exTwoNum j i)
      ∧ (∀ i j r, corrAt exTwoNum i j = some r → -1 ≤ r ∧ r ≤ 1)
      ∧ (∀ i, varOf (presentVals ((numericCols exTwoNum).getD i defaultColumn)) ≠ 0 →
          corrAt exTwoNum i i = some 1) :=
  corrMatrix_props_amended exTwoNum (by decide)

/-- C3 (counterexample to the claim as stated): a table with two numeric
columns whose first column is constant; its diagonal correlation entry is
NaN (`none`), not 1, so "every diagonal entry equals 1" fails. -/
theorem corr_diag_nan_cex :
    1 < (numericCols exConstNum).length
    ∧ corrAt exConstNum 0 0 = none := by
  constructor
  · decide
  · have hcol : (numericCols exConstNum).getD 0 defaultColumn
        = ⟨"a", [.num 1, .num 1]⟩ := by decide
    have hdata : corrData ⟨"a", [.num 1, .num 1]⟩ ⟨"a", [.num 1, .num 1]⟩
        = (0, 0, 0) := by
      simp only [corrData, pairRows, colVals, centered, meanOf, dotL, sqSum, varOf,
        List.map_cons, List.map_nil, List.filterMap_cons, List.filterMap_nil,
        List.zip_cons_cons, List.zip_nil_right, List.zip_nil_left,
        List.sum_cons, List.sum_nil, List.length_cons, List.length_nil, Function.comp]
      norm_num
    unfold corrAt corrVal
    rw [hcol, hdata]
    simp [entryVal]

end AnalystBot
